import Mathlib

/-!
Shallow embedding of the ice_breaker repository's orchestration core:
the profile-data cleaning rule and professional-network fetcher
(src/third_parties/linkedin.py), the microblog fetcher and its fixture
path (src/third_parties/twitter.py), the structured-output schema and
parser (src/output_parsers.py), the synthesis pipeline
(src/ice_breaker.py), and the HTTP request handler (src/app.py).

External effects (HTTP requests, the LLM call, the lookup agents) are
modelled by passing their outcomes as explicit `Except` parameters; a
Python exception is a `PyError` value, split by whether the raised
class falls under `requests.exceptions.RequestException` (the class
the professional fetcher's first handler catches).
-/

/-- JSON-compatible values, as produced by `response.json()`:
null, booleans, numbers, strings, arrays, objects (ordered key/value
lists, matching Python dict insertion order). -/
inductive Json where
  | null : Json
  | bool (b : Bool) : Json
  | num (n : Int) : Json
  | str (s : String) : Json
  | arr (xs : List Json) : Json
  | obj (kvs : List (String × Json)) : Json

/-- `d.get(k)` on a Python dict modelled as an ordered association list. -/
def getKey (kvs : List (String × Json)) (k : String) : Option Json :=
  (kvs.find? (fun kv => kv.1 == k)).map (fun kv => kv.2)

/-- Membership test `value in [[], "", None]` from `clean_profile_data`
(src/third_parties/linkedin.py).  Python `in` compares with `==`, and the
only JSON values equal to `[]`, `""` or `None` are those three values
themselves, so the test is this pattern match. -/
def is_empty_value : Json → Bool
  | .arr [] => true
  | .str "" => true
  | .null => true
  | _ => false

/-- `excluded_fields` from `clean_profile_data` (src/third_parties/linkedin.py). -/
def excluded_fields : List String := ["certifications"]

/-- `clean_profile_data` (src/third_parties/linkedin.py lines 109-131):
the dict comprehension keeping `(key, value)` when
`value not in empty_values and key not in excluded_fields`. -/
def clean_profile_data (data : List (String × Json)) : List (String × Json) :=
  data.filter (fun kv => !is_empty_value kv.2 && !(excluded_fields.contains kv.1))

/-- The cleaning rule in the spec's words (section 3 / section 8): an entry
is kept exactly when its value is not an empty sequence, not the empty
string, not null, and its key is not on the denylist. -/
def keeps_entry_spec (k : String) (v : Json) : Prop :=
  v ≠ .arr [] ∧ v ≠ .str "" ∧ v ≠ .null ∧ k ≠ "certifications"

/-- A raised Python exception, classified by whether its class falls under
`requests.exceptions.RequestException` — the class caught by the first
handler of `scrape_linkedin_profile`.  Following the spec's error
taxonomy, transport-level failures (connection errors, timeouts, bad
HTTP status from `raise_for_status`) are `requestException`; every other
raised class (schema errors, attribute errors, value errors, ...) is
`otherError`. -/
inductive PyError where
  | requestException (msg : String) : PyError
  | otherError (msg : String) : PyError

/-- `str(e)` on a modelled exception. -/
def PyError.msg : PyError → String
  | .requestException m => m
  | .otherError m => m

/-- `json_data.get("person", {})` followed by iterating the result:
extracts the nested person object's items, the empty object when the
key is absent; a non-object person value makes the subsequent
`.items()` iteration raise (an `AttributeError`, not a
`RequestException`). -/
def getPerson (items : List (String × Json)) : Except PyError (List (String × Json)) :=
  match (getKey items "person").getD (.obj []) with
  | .obj kvs => .ok kvs
  | _ => .error (.otherError "person envelope is not an object")

/-- `scrape_linkedin_profile(url, mock=True)` (src/third_parties/linkedin.py
lines 56-106): fetch the fixture document, `raise_for_status`, parse,
take the person envelope, clean.  `mockResult` is the combined outcome of
the fixture HTTP GET, status check and JSON parse (an object's items on
success).  In mock mode the `RequestException` handler re-raises
(`if not mock` fails), and the generic handler re-raises, so every
failure propagates. -/
def scrape_linkedin_profile_mock (mockResult : Except PyError (List (String × Json))) :
    Except PyError (List (String × Json)) :=
  match mockResult with
  | .ok items =>
      match getPerson items with
      | .ok person_data => .ok (clean_profile_data person_data)
      | .error e => .error e
  | .error e => .error e

/-- `scrape_linkedin_profile` (src/third_parties/linkedin.py lines 56-106).
`mock` and the presence of `SCRAPIN_API_KEY` select the path;
`liveResult` is the combined outcome of the live HTTP GET,
`raise_for_status` and JSON parse.  A `RequestException` on the live
path is caught and the function recurses with `mock=True`
(`scrape_linkedin_profile_mock`); any other exception is logged and
re-raised. -/
def scrape_linkedin_profile (mock : Bool) (api_key_present : Bool)
    (liveResult mockResult : Except PyError (List (String × Json))) :
    Except PyError (List (String × Json)) :=
  if mock then scrape_linkedin_profile_mock mockResult
  else if !api_key_present then scrape_linkedin_profile_mock mockResult
  else
    match liveResult with
    | .ok items =>
        match getPerson items with
        | .ok person_data => .ok (clean_profile_data person_data)
        | .error e => .error e
    | .error (.requestException _) => scrape_linkedin_profile_mock mockResult
    | .error (.otherError m) => .error (.otherError m)

/-- A post record as it appears in the fixture document and in the live
API's tweet objects: an id and a text. -/
structure RawTweet where
  id : String
  text : String

/-- A formatted tweet `{text, url}` as returned by both fetch paths in
src/third_parties/twitter.py. -/
structure Tweet where
  text : String
  url : String

/-- The URL synthesis
`f"https://twitter.com/{username}/status/{tweet.id}"` used by both the
live and the mock path. -/
def tweet_url (username id : String) : String :=
  "https://twitter.com/" ++ username ++ "/status/" ++ id

/-- The formatting loop shared by both paths: take the first
`num_tweets` records and map each to `{text, url}` using the originally
requested `username`. -/
def format_tweets (username : String) (num_tweets : Nat) (raw : List RawTweet) : List Tweet :=
  (raw.take num_tweets).map (fun t => ⟨t.text, tweet_url username t.id⟩)

/-- `scrape_user_tweets_mock` (src/third_parties/twitter.py lines 120-172):
fetch the fixture document and format its first `num_tweets` records;
`fixtureResult` is the combined outcome of the fixture HTTP GET,
`raise_for_status` and JSON parse.  The `except Exception` handler turns
any failure into the empty list. -/
def scrape_user_tweets_mock (username : String) (num_tweets : Nat)
    (fixtureResult : Except PyError (List RawTweet)) : List Tweet :=
  match fixtureResult with
  | .ok tweets_data => format_tweets username num_tweets tweets_data
  | .error _ => []

/-- `scrape_user_tweets` (src/third_parties/twitter.py lines 40-117).
`client_initialized` models `twitter_client` being non-None;
`liveResult` is the combined outcome of `get_user` (a missing user
raises `ValueError`), `get_users_tweets` and the access to
`tweets.data`, with `.ok none` standing for a falsy `tweets.data`.
Both `except` clauses (`tweepy.TweepyException` and `Exception`) fall
back to the mock path. -/
def scrape_user_tweets (username : String) (num_tweets : Nat) (use_mock : Bool)
    (client_initialized : Bool)
    (liveResult : Except PyError (Option (List RawTweet)))
    (fixtureResult : Except PyError (List RawTweet)) : List Tweet :=
  if use_mock || !client_initialized then
    scrape_user_tweets_mock username num_tweets fixtureResult
  else
    match liveResult with
    | .ok none => []
    | .ok (some data) => format_tweets username num_tweets data
    | .error _ => scrape_user_tweets_mock username num_tweets fixtureResult

/-- The `Summary` pydantic model (src/output_parsers.py): both fields are
declared without defaults, so both are required. -/
structure Summary where
  summary : String
  facts : List String

/-- `Summary.to_dict` (src/output_parsers.py). -/
def Summary.to_dict (s : Summary) : List (String × Json) :=
  [("summary", .str s.summary), ("facts", .arr (s.facts.map Json.str))]

/-- Pydantic validation of a JSON value against `str`: accepts exactly
strings (no coercion from numbers or null). -/
def asString : Json → Option String
  | .str s => some s
  | _ => none

/-- Pydantic validation of a JSON array's elements against `List[str]`. -/
def allStrings : List Json → Option (List String)
  | [] => some []
  | .str s :: xs =>
      match allStrings xs with
      | some rest => some (s :: rest)
      | none => none
  | _ => none

/-- Pydantic validation of a JSON value against `List[str]`: accepts
exactly arrays whose elements are all strings, never a scalar. -/
def asStringList : Json → Option (List String)
  | .arr xs => allStrings xs
  | _ => none

/-- Validation of the extracted JSON payload against the `Summary` model
by `summary_parser` (a `PydanticOutputParser` over `Summary`,
src/output_parsers.py line 56): the payload must be an object with a
string `summary` field and a list-of-strings `facts` field; anything
else raises an `OutputParserException` (not a `RequestException`).
Extra keys are ignored, matching pydantic's default. -/
def parse_summary_output (j : Json) : Except PyError Summary :=
  match j with
  | .obj kvs =>
      match getKey kvs "summary", getKey kvs "facts" with
      | some sv, some fv =>
          match asString sv, asStringList fv with
          | some s, some fs => .ok ⟨s, fs⟩
          | _, _ => .error (.otherError "field has wrong type")
      | _, _ => .error (.otherError "missing required field")
  | _ => .error (.otherError "output is not an object")

/-- `linkedin_data.get("PhotoUrl")` as used at the end of
`ice_break_with`: the raw value, `None` when absent. -/
def getPhotoUrl (linkedin_data : List (String × Json)) : Option Json :=
  getKey linkedin_data "PhotoUrl"

/-- `ice_break_with` (src/ice_breaker.py lines 25-92): resolve and scrape
the professional profile, resolve and scrape tweets, build the prompt,
invoke the LLM, parse its output, return the parsed `Summary` and the
profile's `PhotoUrl`.  The external steps are passed as outcomes:
`linkedinResult` is the outcome of `scrape_linkedin_profile` (the agent
lookup and scrape together, which may raise), `tweets` the tweet list
(its fetcher never raises), `llmResult` the raw LLM output (the chain up
to the parser, which may raise).  The parser is the final chain step, so
a parse failure raises out of `chain.invoke`. -/
def ice_break_with (name : String)
    (linkedinResult : Except PyError (List (String × Json)))
    (tweets : List Tweet)
    (llmResult : Except PyError Json) :
    Except PyError (Summary × Option Json) :=
  match linkedinResult with
  | .error e => .error e
  | .ok linkedin_data =>
      match llmResult with
      | .error e => .error e
      | .ok out =>
          match parse_summary_output out with
          | .ok res => .ok (res, getPhotoUrl linkedin_data)
          | .error e => .error e

/-- An HTTP response: status code and JSON body as an object's items. -/
structure HttpResponse where
  status : Nat
  body : List (String × Json)

/-- `request.form.get("name")` followed by Python's `if not name:` —
true exactly when the field is missing or the empty string. -/
def name_missing : Option String → Bool
  | none => true
  | some s => s == ""

/-- `photoUrl` field value: `profile_pic_url or ""` — the raw value
unless it is falsy (`None` or `""` here), in which case `""`. -/
def photo_or_empty : Option Json → Json
  | none => .str ""
  | some (.str "") => .str ""
  | some .null => .str ""
  | some v => v

/-- The `/process` handler (src/app.py lines 41-84).  `debug` is
`app.debug`; `form_name` is `request.form.get("name")`; `pipeline` is
`ice_break_with` with everything it needs already bound, invoked only
past the name guard.  Any exception from the pipeline is caught and
turned into a 500 with a fixed message and, in debug mode only, the raw
error text in `details`. -/
def process (debug : Bool) (form_name : Option String)
    (pipeline : String → Except PyError (Summary × Option Json)) : HttpResponse :=
  match form_name with
  | none => ⟨400, [("error", .str "Name parameter is required")]⟩
  | some name =>
      if name == "" then ⟨400, [("error", .str "Name parameter is required")]⟩
      else
        match pipeline name with
        | .ok (summary_and_facts, profile_pic_url) =>
            ⟨200, [("summary_and_facts", .obj summary_and_facts.to_dict),
                   ("photoUrl", photo_or_empty profile_pic_url)]⟩
        | .error e =>
            ⟨500, [("error", .str "Failed to generate ice breaker content. Please try again."),
                   ("details", if debug then .str e.msg else .null)]⟩


/-! ## Helper lemmas -/

theorem is_empty_value_false_iff (v : Json) :
    is_empty_value v = false ↔ (v ≠ .arr [] ∧ v ≠ .str "" ∧ v ≠ .null) := by
  cases v with
  | null => simp [is_empty_value]
  | bool b => simp [is_empty_value]
  | num n => simp [is_empty_value]
  | str s =>
      cases s with
      | mk cs => cases cs <;> simp [is_empty_value, String.ext_iff]
  | arr xs => cases xs <;> simp [is_empty_value]
  | obj kvs => simp [is_empty_value]

/-! ## Claims -/

/-- C2: the profile cleaning function removes exactly those entries whose
value is an empty sequence, empty string, or null, and those whose key is
on the fixed denylist (`certifications`), keeping all other entries
unchanged (membership characterization plus order/value preservation as
a sublist); in particular, cleaning the stubbed Jane Doe record yields
exactly the `fullName`/`headline` record. -/
theorem clean_profile_data_spec :
    (∀ (data : List (String × Json)) (k : String) (v : Json),
        (k, v) ∈ clean_profile_data data ↔ ((k, v) ∈ data ∧ keeps_entry_spec k v)) ∧
    (∀ data : List (String × Json), (clean_profile_data data).Sublist data) ∧
    clean_profile_data
        [("fullName", .str "Jane Doe"), ("headline", .str "Engineer"),
         ("certifications", .arr [.str "X"]), ("summary", .str "")]
      = [("fullName", .str "Jane Doe"), ("headline", .str "Engineer")] := by
  refine ⟨?_, fun data => List.filter_sublist data, rfl⟩
  intro data k v
  rw [clean_profile_data, List.mem_filter]
  simp only [keeps_entry_spec, excluded_fields, Bool.and_eq_true, Bool.not_eq_true',
    is_empty_value_false_iff]
  simp only [List.elem_eq_mem, List.mem_singleton, decide_eq_false_iff_not, ne_eq]
  tauto

/-- C6: the profile cleaning function is idempotent — applying it twice
yields exactly the same mapping as applying it once. -/
theorem clean_profile_data_idempotent (data : List (String × Json)) :
    clean_profile_data (clean_profile_data data) = clean_profile_data data := by
  simp [clean_profile_data, List.filter_filter]

/-- C3: in the professional-network fetcher with `use_mock=false` (and the
credential present, so the live path is attempted), a transport-level
failure of the live call triggers exactly one unconditional fallback to
the mock/fixture path instead of raising — and that fallback itself
never falls back again (in mock mode every failure re-raises) — while a
non-transport error propagates to the caller unmodified. -/
theorem scrape_linkedin_profile_fallback (m : String)
    (mockResult : Except PyError (List (String × Json))) :
    scrape_linkedin_profile false true (.error (.requestException m)) mockResult
      = scrape_linkedin_profile_mock mockResult ∧
    (∀ e : PyError, scrape_linkedin_profile_mock (.error e) = .error e) ∧
    scrape_linkedin_profile false true (.error (.otherError m)) mockResult
      = .error (.otherError m) :=
  ⟨rfl, fun _ => rfl, rfl⟩

/-- C4: whenever the live microblog fetch path raises (any exception, of
either class, including the `ValueError` raised for a missing user),
`scrape_user_tweets` does not propagate the exception and returns the
same result as calling the fixture path `scrape_user_tweets_mock`
directly with the same handle and count — under any flag configuration. -/
theorem scrape_user_tweets_fallback (username : String) (num_tweets : Nat)
    (use_mock client_initialized : Bool) (e : PyError)
    (fixtureResult : Except PyError (List RawTweet)) :
    scrape_user_tweets username num_tweets use_mock client_initialized
        (.error e) fixtureResult
      = scrape_user_tweets_mock username num_tweets fixtureResult := by
  cases use_mock <;> cases client_initialized <;> rfl

/-- C9: if retrieval of the fixture document itself fails,
`scrape_user_tweets_mock` returns the empty sequence rather than
raising; and this is the only such degradation — the professional
fetcher, by contrast, propagates an error when its fallback path also
fails (it never converts a failure into an empty result). -/
theorem scrape_user_tweets_mock_fail_soft :
    (∀ (username : String) (num_tweets : Nat) (e : PyError),
        scrape_user_tweets_mock username num_tweets (.error e) = []) ∧
    (∀ (m : String) (e : PyError),
        scrape_linkedin_profile false true (.error (.requestException m)) (.error e)
          = .error e) ∧
    (∀ (mock api_key : Bool) (e e' : PyError),
        scrape_linkedin_profile mock api_key (.error e) (.error e') ≠ .ok []) := by
  refine ⟨fun _ _ _ => rfl, fun _ _ => rfl, ?_⟩
  intro mock api_key e e'
  cases mock <;> cases api_key <;> cases e <;> simp [scrape_linkedin_profile,
    scrape_linkedin_profile_mock]

/-- C10: if the enrichment (or fixture) response parses as JSON but
contains no `person` key, `scrape_linkedin_profile` does not raise a
schema error: it substitutes the empty mapping for the person envelope
and returns the cleaned empty mapping to the caller — on the live path
and on the mock path alike. -/
theorem scrape_linkedin_profile_no_person (items : List (String × Json))
    (h : getKey items "person" = none)
    (mockResult : Except PyError (List (String × Json))) :
    scrape_linkedin_profile false true (.ok items) mockResult = .ok [] ∧
    scrape_linkedin_profile_mock (.ok items) = .ok [] := by
  have hp : getPerson items = .ok [] := by
    simp [getPerson, h]
  constructor
  · simp [scrape_linkedin_profile, hp, clean_profile_data]
  · simp [scrape_linkedin_profile_mock, hp, clean_profile_data]

/-- Witness for C10 at a concrete response lacking the `person` key. -/
theorem scrape_linkedin_profile_no_person_witness :
    scrape_linkedin_profile false true
        (.ok [("success", .bool true), ("credits_left", .num 42)])
        (.error (.otherError "unused"))
      = .ok [] ∧
    scrape_linkedin_profile_mock
        (.ok [("success", .bool true), ("credits_left", .num 42)])
      = .ok [] :=
  scrape_linkedin_profile_no_person
    [("success", .bool true), ("credits_left", .num 42)] rfl
    (.error (.otherError "unused"))

/-- C5: a microblog fetch with `count=3` against a fixture document
containing at least 3 posts (each with non-empty text) returns exactly 3
`Post` entries; each entry's text is that fixture post's (non-empty)
text, and each entry's url is synthesized from the originally requested
handle — it contains the handle and that post's id as substrings. -/
theorem scrape_user_tweets_mock_count3 (username : String) (raw : List RawTweet)
    (h3 : 3 ≤ raw.length)
    (htext : ∀ t ∈ raw.take 3, t.text ≠ "") :
    (scrape_user_tweets_mock username 3 (.ok raw)).length = 3 ∧
    ∀ p ∈ scrape_user_tweets_mock username 3 (.ok raw),
      p.text ≠ "" ∧
      ∃ t ∈ raw.take 3,
        p.text = t.text ∧
        p.url = tweet_url username t.id ∧
        (∃ a b, p.url = a ++ username ++ b) ∧
        (∃ c d, p.url = c ++ t.id ++ d) := by
  constructor
  · simp only [scrape_user_tweets_mock, format_tweets, List.length_map, List.length_take]
    omega
  · intro p hp
    simp only [scrape_user_tweets_mock, format_tweets, List.mem_map] at hp
    obtain ⟨t, ht, rfl⟩ := hp
    refine ⟨htext t ht, t, ht, rfl, rfl, ?_, ?_⟩
    · refine ⟨"https://twitter.com/", "/status/" ++ t.id, ?_⟩
      simp only [tweet_url, String.append_assoc]
    · refine ⟨"https://twitter.com/" ++ username ++ "/status/", "", ?_⟩
      simp [tweet_url]

/-- Witness for C5 at a concrete fixture of four posts. -/
theorem scrape_user_tweets_mock_count3_witness :
    (scrape_user_tweets_mock "EdenEmarco177" 3
        (.ok [⟨"101", "post one"⟩, ⟨"102", "post two"⟩,
              ⟨"103", "post three"⟩, ⟨"104", "post four"⟩])).length = 3 ∧
    ∀ p ∈ scrape_user_tweets_mock "EdenEmarco177" 3
        (.ok [⟨"101", "post one"⟩, ⟨"102", "post two"⟩,
              ⟨"103", "post three"⟩, ⟨"104", "post four"⟩]),
      p.text ≠ "" ∧
      ∃ t ∈ List.take 3 [RawTweet.mk "101" "post one", ⟨"102", "post two"⟩,
              ⟨"103", "post three"⟩, ⟨"104", "post four"⟩],
        p.text = t.text ∧
        p.url = tweet_url "EdenEmarco177" t.id ∧
        (∃ a b, p.url = a ++ "EdenEmarco177" ++ b) ∧
        (∃ c d, p.url = c ++ t.id ++ d) :=
  scrape_user_tweets_mock_count3 "EdenEmarco177"
    [⟨"101", "post one"⟩, ⟨"102", "post two"⟩,
     ⟨"103", "post three"⟩, ⟨"104", "post four"⟩]
    (by decide) (by decide)

/-- C7: a POST to `/process` whose form body has no `name` field, or whose
`name` field is the empty string, returns status 400 with a JSON body
whose `error` key says the name parameter is required; and the core
pipeline is never invoked for such a request — the response is
identical for every possible pipeline. -/
theorem process_missing_name (debug : Bool) (form_name : Option String)
    (h : form_name = none ∨ form_name = some "")
    (pipeline : String → Except PyError (Summary × Option Json)) :
    process debug form_name pipeline
      = ⟨400, [("error", .str "Name parameter is required")]⟩ ∧
    ∀ other : String → Except PyError (Summary × Option Json),
      process debug form_name other = process debug form_name pipeline := by
  rcases h with rfl | rfl
  · exact ⟨rfl, fun _ => rfl⟩
  · exact ⟨rfl, fun _ => rfl⟩

/-- Witness for C7 at `name=""` in non-debug mode, with a pipeline that
would return a 200-shaped success if it were ever consulted. -/
theorem process_missing_name_witness :
    process false (some "") (fun _ => .ok (⟨"s", ["f"]⟩, none))
      = ⟨400, [("error", .str "Name parameter is required")]⟩ ∧
    ∀ other : String → Except PyError (Summary × Option Json),
      process false (some "") other
        = process false (some "") (fun _ => .ok (⟨"s", ["f"]⟩, none)) :=
  process_missing_name false (some "") (Or.inr rfl) (fun _ => .ok (⟨"s", ["f"]⟩, none))

/-- C8: when the LLM output lacks the required `facts` key, the parser
rejects it and the pipeline raises; the HTTP boundary converts that —
and any other core failure — into a 500 response with the fixed generic
error message, with the raw error text in `details` only in debug mode
and null otherwise. -/
theorem process_parse_failure (debug : Bool) (name : String) (hname : name ≠ "")
    (linkedin_data kvs : List (String × Json))
    (hf : getKey kvs "facts" = none) (tweets : List Tweet) :
    parse_summary_output (.obj kvs) = .error (.otherError "missing required field") ∧
    ice_break_with name (.ok linkedin_data) tweets (.ok (.obj kvs))
      = .error (.otherError "missing required field") ∧
    process debug (some name)
        (fun n => ice_break_with n (.ok linkedin_data) tweets (.ok (.obj kvs)))
      = ⟨500, [("error", .str "Failed to generate ice breaker content. Please try again."),
               ("details", if debug then .str "missing required field" else .null)]⟩ ∧
    ∀ e : PyError,
      process debug (some name) (fun _ => .error e)
        = ⟨500, [("error", .str "Failed to generate ice breaker content. Please try again."),
                 ("details", if debug then .str e.msg else .null)]⟩ := by
  have hparse : parse_summary_output (.obj kvs)
      = .error (.otherError "missing required field") := by
    cases hs : getKey kvs "summary" <;> simp [parse_summary_output, hs, hf]
  have hice : ice_break_with name (.ok linkedin_data) tweets (.ok (.obj kvs))
      = .error (.otherError "missing required field") := by
    simp [ice_break_with, hparse]
  have hguard : (name == "") = false := by
    simp [hname]
  refine ⟨hparse, hice, ?_, ?_⟩
  · simp [process, hguard, hice, PyError.msg]
  · intro e
    simp [process, hguard]

/-- Witness for C8 in debug mode with a concrete payload lacking `facts`. -/
theorem process_parse_failure_witness :
    parse_summary_output (.obj [("summary", .str "a short summary")])
      = .error (.otherError "missing required field") ∧
    ice_break_with "Eden Marco" (.ok []) [] (.ok (.obj [("summary", .str "a short summary")]))
      = .error (.otherError "missing required field") ∧
    process true (some "Eden Marco")
        (fun n => ice_break_with n (.ok []) [] (.ok (.obj [("summary", .str "a short summary")])))
      = ⟨500, [("error", .str "Failed to generate ice breaker content. Please try again."),
               ("details", if true then .str "missing required field" else .null)]⟩ ∧
    ∀ e : PyError,
      process true (some "Eden Marco") (fun _ => .error e)
        = ⟨500, [("error", .str "Failed to generate ice breaker content. Please try again."),
                 ("details", if true then .str e.msg else .null)]⟩ :=
  process_parse_failure true "Eden Marco" (by decide) [] [("summary", .str "a short summary")]
    rfl []

theorem asString_eq_some {v : Json} {s : String} (h : asString v = some s) :
    v = .str s := by
  cases v <;> simp [asString] at h
  rw [h]

theorem allStrings_eq_some : ∀ {xs : List Json} {fs : List String},
    allStrings xs = some fs → xs = fs.map Json.str := by
  intro xs
  induction xs with
  | nil =>
      intro fs h
      simp only [allStrings, Option.some.injEq] at h
      subst h
      rfl
  | cons x rest ih =>
      intro fs h
      cases x with
      | str s =>
          cases hr : allStrings rest with
          | none =>
              simp only [allStrings, hr] at h
              exact Option.noConfusion h
          | some r =>
              simp only [allStrings, hr, Option.some.injEq] at h
              subst h
              simp [ih hr]
      | null => simp [allStrings] at h
      | bool b => simp [allStrings] at h
      | num n => simp [allStrings] at h
      | arr ys => simp [allStrings] at h
      | obj kvs => simp [allStrings] at h

theorem asStringList_eq_some {v : Json} {fs : List String}
    (h : asStringList v = some fs) : v = .arr (fs.map Json.str) := by
  cases v <;> simp [asStringList] at h
  rw [allStrings_eq_some h]

theorem parse_summary_output_ok {j : Json} {s : Summary}
    (h : parse_summary_output j = .ok s) :
    ∃ kvs, j = .obj kvs ∧
      getKey kvs "summary" = some (.str s.summary) ∧
      getKey kvs "facts" = some (.arr (s.facts.map Json.str)) := by
  obtain ⟨ss, sf⟩ := s
  cases j with
  | obj kvs =>
      refine ⟨kvs, rfl, ?_⟩
      cases hs : getKey kvs "summary" with
      | none => simp [parse_summary_output, hs] at h
      | some sv =>
          cases hf : getKey kvs "facts" with
          | none => simp [parse_summary_output, hs, hf] at h
          | some fv =>
              cases ha : asString sv with
              | none => simp [parse_summary_output, hs, hf, ha] at h
              | some a =>
                  cases hb : asStringList fv with
                  | none => simp [parse_summary_output, hs, hf, ha, hb] at h
                  | some b =>
                      simp only [parse_summary_output, hs, hf, ha, hb,
                        Except.ok.injEq, Summary.mk.injEq] at h
                      obtain ⟨h1, h2⟩ := h
                      subst h1
                      subst h2
                      exact ⟨by rw [asString_eq_some ha], by rw [asStringList_eq_some hb]⟩
  | null => simp [parse_summary_output] at h
  | bool b => simp [parse_summary_output] at h
  | num n => simp [parse_summary_output] at h
  | str t => simp [parse_summary_output] at h
  | arr xs => simp [parse_summary_output] at h

/-- C1 counterexample: the `Summary` model's `summary` field is a plain
string with no non-emptiness constraint, so on an LLM payload whose
`summary` is the empty string the pipeline returns successfully with an
empty summary — for a non-empty `person_name` it neither raises nor
returns a non-empty summary, contradicting the claim as stated. -/
theorem ice_break_with_empty_summary_counterexample :
    ice_break_with "Eden Marco" (.ok []) []
        (.ok (.obj [("summary", .str ""), ("facts", .arr [])]))
      = .ok (⟨"", []⟩, none) ∧
    ("Eden Marco" : String) ≠ "" ∧
    (Summary.mk "" []).summary = "" :=
  ⟨rfl, by decide, rfl⟩

/-- C1 (amended): for every non-empty `person_name`, the synthesis
pipeline either raises or returns a `SynthesisResult` whose `summary` is
a string (possibly empty) and whose `facts` is a sequence of strings
(possibly empty); it never returns a result with a missing, null, or
partially-populated field — a successful return requires the LLM output
to be an object actually carrying a string `summary` and a
list-of-strings `facts`, and both returned fields equal those payload
values. -/
theorem ice_break_with_fully_populated (name : String) (hname : name ≠ "")
    (linkedinResult : Except PyError (List (String × Json)))
    (tweets : List Tweet) (llmResult : Except PyError Json)
    (s : Summary) (pic : Option Json)
    (h : ice_break_with name linkedinResult tweets llmResult = .ok (s, pic)) :
    ∃ (linkedin_data kvs : List (String × Json)),
      linkedinResult = .ok linkedin_data ∧
      llmResult = .ok (.obj kvs) ∧
      getKey kvs "summary" = some (.str s.summary) ∧
      getKey kvs "facts" = some (.arr (s.facts.map Json.str)) ∧
      pic = getPhotoUrl linkedin_data := by
  cases linkedinResult with
  | error e => simp [ice_break_with] at h
  | ok linkedin_data =>
      cases llmResult with
      | error e => simp [ice_break_with] at h
      | ok out =>
          cases hp : parse_summary_output out with
          | error e => simp [ice_break_with, hp] at h
          | ok res =>
              simp only [ice_break_with, hp, Except.ok.injEq, Prod.mk.injEq] at h
              obtain ⟨h1, h2⟩ := h
              subst h1
              subst h2
              obtain ⟨kvs, rfl, hsum, hfacts⟩ := parse_summary_output_ok hp
              exact ⟨linkedin_data, kvs, rfl, rfl, hsum, hfacts, rfl⟩

/-- Witness for the amended C1 at a concrete successful run. -/
theorem ice_break_with_fully_populated_witness :
    ∃ (linkedin_data kvs : List (String × Json)),
      (Except.ok [("PhotoUrl", Json.str "https://img.example/p.jpg")]
          : Except PyError (List (String × Json))) = .ok linkedin_data ∧
      (Except.ok (Json.obj [("summary", .str "a summary"),
            ("facts", .arr [.str "fact one", .str "fact two"])])
          : Except PyError Json) = .ok (.obj kvs) ∧
      getKey kvs "summary" = some (.str (Summary.mk "a summary" ["fact one", "fact two"]).summary) ∧
      getKey kvs "facts"
        = some (.arr ((Summary.mk "a summary" ["fact one", "fact two"]).facts.map Json.str)) ∧
      (some (Json.str "https://img.example/p.jpg") : Option Json) = getPhotoUrl linkedin_data :=
  ice_break_with_fully_populated "Eden Marco" (by decide)
    (.ok [("PhotoUrl", Json.str "https://img.example/p.jpg")]) []
    (.ok (.obj [("summary", .str "a summary"),
        ("facts", .arr [.str "fact one", .str "fact two"])]))
    ⟨"a summary", ["fact one", "fact two"]⟩
    (some (.str "https://img.example/p.jpg")) (by rfl)
